import Mathlib

/-!
Verification of the dryve D1 protocol stack (codec, telegram builder/parser,
transport, SDO client, CiA-402 state machine) against its specification.

The Python sources are shallowly embedded: pure functions become Lean
functions on `Nat`/`Int`/`Rat` and byte lists (`List Nat`), raised Python
exceptions become `Except` error values, and the stateful transport becomes
explicit state passing over a `TransportState` record.  Machine integers are
modelled as unbounded integers with explicit `% 2 ^ w` where the Python code
masks or packs them.
-/

deriving instance DecidableEq for Except

namespace IgusD1

/-- Python exceptions that the embedded code can raise, flattened into one
error type.  `modbusException`, `transactionMismatch`, `accessViolation`,
`objectNotFound` and `dryveFailed` correspond to the `DryveError` subclasses
of exceptions.py; `valueError`, `structError` and `indexError` are the
built-in Python exceptions the code can raise; `typeError` is Python's
TypeError, which struct.unpack would raise on a non-bytes argument (it
cannot actually occur: the only non-bytes value handed to the parser,
send_request's result tuple, is stopped earlier by the length guard);
`protocolError` is the spec's base protocol error, used by the
spec-modelled igusd1 parser for the framing/echo-mismatch rejections the
spec leaves unnamed — the taxonomy makes ModbusException the only retried
protocol error, so these are distinct from it; `floatNotModelled` marks the
one modelling gap (a float that is not exactly representable in binary32,
where Python would round). -/
inductive PyErr where
  | modbusException
  | transactionMismatch
  | accessViolation
  | objectNotFound
  | dryveFailed
  | valueError
  | structError
  | indexError
  | typeError
  | protocolError
  | floatNotModelled
deriving DecidableEq

/-- Data types recognized by od.py's `DataType` enum. -/
inductive DataType where
  | UINT8
  | INT8
  | UINT16
  | INT16
  | UINT32
  | INT32
  | FLOAT32
deriving DecidableEq

/-- Byte width of each data type (the width of the struct format codes
`<B <b <H <h <I <i <f` used in codec.py). -/
def DataType.width : DataType → ℕ
  | .UINT8 => 1
  | .INT8 => 1
  | .UINT16 => 2
  | .INT16 => 2
  | .UINT32 => 4
  | .INT32 => 4
  | .FLOAT32 => 4

/-- Python `int(x)` on a rational: truncation toward zero. -/
def pyInt (q : ℚ) : ℤ := q.num.tdiv q.den

/-- Little-endian byte list of `n` at width `w`, as produced by
`struct.pack` with a little-endian integer format. -/
def toLEBytes (n : ℕ) : ℕ → List ℕ
  | 0 => []
  | w + 1 => n % 256 :: toLEBytes (n / 256) w

/-- Little-endian decoding of a byte list, as done by `struct.unpack`. -/
def fromLEBytes : List ℕ → ℕ
  | [] => 0
  | b :: bs => b + 256 * fromLEBytes bs

/-- One little-endian integer `struct.pack` call: range-check the value
(`struct.error` on overflow, modelled as `.structError`), then emit the
two's-complement bytes at exactly width `w`. -/
def structPackInt (sgnd : Bool) (w : ℕ) (n : ℤ) : Except PyErr (List ℕ) :=
  match sgnd with
  | true =>
    if -(2 ^ (8 * w - 1) : ℤ) ≤ n ∧ n < 2 ^ (8 * w - 1) then
      .ok (toLEBytes ((n % (2 ^ (8 * w) : ℤ)).toNat) w)
    else
      .error .structError
  | false =>
    if 0 ≤ n ∧ n < 2 ^ (8 * w) then
      .ok (toLEBytes ((n % (2 ^ (8 * w) : ℤ)).toNat) w)
    else
      .error .structError

/-- One little-endian integer `struct.unpack` call: the buffer length must
equal the format width (`struct.error` otherwise), and signed formats
reinterpret the high bit as two's complement. -/
def structUnpackInt (sgnd : Bool) (w : ℕ) (bs : List ℕ) : Except PyErr ℤ :=
  if bs.length = w then
    let m := fromLEBytes bs
    .ok (if sgnd ∧ 2 ^ (8 * w - 1) ≤ m then (m : ℤ) - 2 ^ (8 * w) else (m : ℤ))
  else
    .error .structError

/-- Floor of the base-2 logarithm of a positive rational.  Only used to seed
the binary32 encoder; its output is re-checked there, so no correctness
obligation rests on it. -/
def qlog2 (a : ℚ) : ℤ :=
  let e0 : ℤ := (Nat.log2 a.num.toNat : ℤ) - (Nat.log2 a.den : ℤ)
  if a < 2 ^ e0 then e0 - 1 else e0

/-- Exponent and mantissa fields of the binary32 representation of a
positive rational, when it is exactly representable (`none` otherwise). -/
def f32encodePos (a : ℚ) : Option (ℕ × ℕ) :=
  let e := qlog2 a
  if -126 ≤ e ∧ e ≤ 127 then
    let m : ℚ := a * 2 ^ (23 - e)
    if m.den = 1 ∧ 2 ^ 23 ≤ m.num ∧ m.num < 2 ^ 24 then
      some ((e + 127).toNat, (m.num - 2 ^ 23).toNat)
    else none
  else
    let m : ℚ := a * 2 ^ (149 : ℤ)
    if m.den = 1 ∧ 0 < m.num ∧ m.num < 2 ^ 23 then some (0, m.num.toNat)
    else none

/-- Bit pattern of the binary32 representation of a rational, when the value
is exactly representable in binary32 (`none` otherwise). -/
def f32bits (v : ℚ) : Option ℕ :=
  if v = 0 then some 0
  else
    let sgn : ℕ := if v < 0 then 1 else 0
    match f32encodePos |v| with
    | some (e, m) => some (sgn * 2 ^ 31 + e * 2 ^ 23 + m)
    | none => none

/-- Magnitude denoted by binary32 exponent and mantissa fields. -/
def f32val (e m : ℕ) : ℚ :=
  if e = 0 then (m : ℚ) * 2 ^ (-149 : ℤ)
  else ((2 ^ 23 + m : ℕ) : ℚ) * 2 ^ ((e : ℤ) - 150)

/-- Rational value of a binary32 bit pattern (`none` for infinities and
NaNs, which have no rational value). -/
def f32decode (b : ℕ) : Option ℚ :=
  let sgn := b / 2 ^ 31
  let e := b / 2 ^ 23 % 2 ^ 8
  let m := b % 2 ^ 23
  if e = 255 then none
  else some ((if sgn % 2 = 1 then -1 else 1) * f32val e m)

/-- codec.py `pack_value`: multiply by the scale when `scale != 1`, truncate
to the integer (or binary32) representation of the data type, encode
little-endian at exactly the type's byte width. -/
def pack_value (v : ℚ) (dtype : DataType) (scale : ℚ) : Except PyErr (List ℕ) :=
  let scaled_val := if scale ≠ 1 then v * scale else v
  match dtype with
  | .UINT8 => structPackInt false 1 (pyInt scaled_val)
  | .INT8 => structPackInt true 1 (pyInt scaled_val)
  | .UINT16 => structPackInt false 2 (pyInt scaled_val)
  | .INT16 => structPackInt true 2 (pyInt scaled_val)
  | .UINT32 => structPackInt false 4 (pyInt scaled_val)
  | .INT32 => structPackInt true 4 (pyInt scaled_val)
  | .FLOAT32 =>
    match f32bits scaled_val with
    | some b => .ok (toLEBytes b 4)
    | none => .error .floatNotModelled

/-- codec.py `unpack_value`: decode little-endian per data type, then divide
by the scale when `scale != 1`. -/
def unpack_value (data : List ℕ) (dtype : DataType) (scale : ℚ) :
    Except PyErr ℚ :=
  (match dtype with
   | .UINT8 => (structUnpackInt false 1 data).map (fun n => (n : ℚ))
   | .INT8 => (structUnpackInt true 1 data).map (fun n => (n : ℚ))
   | .UINT16 => (structUnpackInt false 2 data).map (fun n => (n : ℚ))
   | .INT16 => (structUnpackInt true 2 data).map (fun n => (n : ℚ))
   | .UINT32 => (structUnpackInt false 4 data).map (fun n => (n : ℚ))
   | .INT32 => (structUnpackInt true 4 data).map (fun n => (n : ℚ))
   | .FLOAT32 =>
     if data.length = 4 then
       match f32decode (fromLEBytes data) with
       | some q => .ok q
       | none => .error .floatNotModelled
     else .error .structError).map
    (fun val => if scale ≠ 1 then val / scale else val)

/-- Access types of od.py's `AccessType` enum. -/
inductive AccessType where
  | RO
  | RW
  | WO
  | CONST
deriving DecidableEq

/-- Symbolic Object Dictionary keys of od.py's `ODKey` enum. -/
inductive ODKey where
  | CONTROLWORD
  | STATUSWORD
  | MODE_OF_OPERATION
  | MODE_OF_OPERATION_DISPLAY
  | TARGET_POSITION
  | TARGET_VELOCITY
  | ACTUAL_POSITION
  | ACTUAL_VELOCITY
  | PROFILE_VELOCITY
  | PROFILE_ACCELERATION
  | PROFILE_DECELERATION
  | FEED_CONSTANT_FEED
  | FEED_CONSTANT_SHAFT_REVOLUTIONS
  | HOMING_METHOD
  | HOMING_SPEED_SEARCH_SWITCH
  | HOMING_SPEED_SEARCH_ZERO
  | HOMING_ACCELERATION
  | DIGITAL_INPUTS
  | DIGITAL_OUTPUTS_PHYSICAL
  | DIGITAL_OUTPUTS_BITMASK
  | SUPPORTED_MODES
  | POSITION_DEMAND
  | ERROR_REGISTER
  | PREDEFINED_ERROR_FIELD
  | STORE_PARAMETERS
  | HOMING_STATUS
deriving DecidableEq

/-- Binary-layout metadata of one Object Dictionary entry (the per-key dict
of od.py's `OD_MAP`). -/
structure ODEntry where
  index : ℕ
  subindex : ℕ
  length : ℕ
  access : AccessType
  dtype : DataType
  scale : ℚ
deriving DecidableEq

/-- od.py `OD_MAP`: the static registry, one entry per key. -/
def OD_MAP : ODKey → ODEntry
  | .HOMING_STATUS => ⟨0x2014, 0, 2, .RO, .UINT16, 1⟩
  | .CONTROLWORD => ⟨0x6040, 0, 2, .RW, .UINT16, 1⟩
  | .STATUSWORD => ⟨0x6041, 0, 2, .RO, .UINT16, 1⟩
  | .MODE_OF_OPERATION => ⟨0x6060, 0, 1, .RW, .INT8, 1⟩
  | .MODE_OF_OPERATION_DISPLAY => ⟨0x6061, 0, 1, .RO, .INT8, 1⟩
  | .TARGET_POSITION => ⟨0x607A, 0, 4, .RW, .INT32, 1⟩
  | .TARGET_VELOCITY => ⟨0x60FF, 0, 4, .RW, .INT32, 1⟩
  | .ACTUAL_POSITION => ⟨0x6064, 0, 4, .RO, .INT32, 1⟩
  | .ACTUAL_VELOCITY => ⟨0x606C, 0, 4, .RO, .INT32, 100⟩
  | .PROFILE_VELOCITY => ⟨0x6081, 0, 4, .RW, .UINT32, 1⟩
  | .PROFILE_ACCELERATION => ⟨0x6083, 0, 4, .RW, .UINT32, 1⟩
  | .PROFILE_DECELERATION => ⟨0x6084, 0, 4, .RW, .UINT32, 1⟩
  | .FEED_CONSTANT_FEED => ⟨0x6092, 1, 4, .RW, .UINT32, 1⟩
  | .FEED_CONSTANT_SHAFT_REVOLUTIONS => ⟨0x6092, 2, 4, .RW, .UINT32, 1⟩
  | .HOMING_METHOD => ⟨0x6098, 0, 1, .RO, .INT8, 1⟩
  | .HOMING_SPEED_SEARCH_SWITCH => ⟨0x6099, 1, 4, .RW, .UINT32, 100⟩
  | .HOMING_SPEED_SEARCH_ZERO => ⟨0x6099, 2, 4, .RW, .UINT32, 100⟩
  | .HOMING_ACCELERATION => ⟨0x609A, 0, 4, .RW, .UINT32, 100⟩
  | .DIGITAL_INPUTS => ⟨0x60FD, 0, 4, .RO, .UINT32, 1⟩
  | .DIGITAL_OUTPUTS_PHYSICAL => ⟨0x60FE, 1, 4, .RW, .UINT32, 1⟩
  | .DIGITAL_OUTPUTS_BITMASK => ⟨0x60FE, 2, 4, .RW, .UINT32, 1⟩
  | .SUPPORTED_MODES => ⟨0x6502, 0, 4, .RO, .UINT32, 1⟩
  | .POSITION_DEMAND => ⟨0x6063, 0, 4, .RO, .INT32, 100⟩
  | .ERROR_REGISTER => ⟨0x1001, 0, 1, .RO, .UINT8, 1⟩
  | .PREDEFINED_ERROR_FIELD => ⟨0x1003, 0, 8, .RO, .UINT32, 1⟩
  | .STORE_PARAMETERS => ⟨0x1010, 1, 4, .RW, .UINT32, 1⟩

/-- packet.py `ModbusPacketBuilder.build_read_request`: reject write-only
entries with `AccessViolation`, then emit the 12-byte request PDU: function
0x2B, MEI type 0x0D, rw = 0, two reserved zero bytes, big-endian index
(`(index >> 8) & 0xFF` and `index & 0xFF`, written as division and modulus
by 256), subindex, three reserved zero bytes, length. -/
def build_read_request (od_key : ODKey) : Except PyErr (List ℕ) :=
  let obj := OD_MAP od_key
  if obj.access = .WO then
    .error .accessViolation
  else
    .ok [0x2B, 0x0D, 0x00,
         0x00, 0x00,
         obj.index / 256 % 256, obj.index % 256,
         obj.subindex,
         0x00, 0x00, 0x00,
         obj.length]

/-- packet.py `ModbusPacketBuilder.build_write_request`: reject read-only
entries with `AccessViolation`, pack the value (any packing failure
propagates), require the packed length to equal the entry's declared length
(`ValueError` otherwise), then the 12-byte header with rw = 1 followed by
the payload. -/
def build_write_request (od_key : ODKey) (value : ℚ) : Except PyErr (List ℕ) :=
  let obj := OD_MAP od_key
  if obj.access = .RO then
    .error .accessViolation
  else
    match pack_value value obj.dtype obj.scale with
    | .error e => .error e
    | .ok packed_data =>
      if packed_data.length ≠ obj.length then
        .error .valueError
      else
        .ok ([0x2B, 0x0D, 0x01,
              0x00, 0x00,
              obj.index / 256 % 256, obj.index % 256,
              obj.subindex,
              0x00, 0x00, 0x00,
              obj.length] ++ packed_data)

/-- Request PDU layout as the spec's §6 words it (for comparison with the
builder): function, MEI type, rw, THREE reserved zero bytes, big-endian
index, subindex, three reserved zero bytes, data length, then the payload
(write requests only). -/
def specC7RequestLayout (rw : ℕ) (index subindex data_length : ℕ)
    (payload : List ℕ) : List ℕ :=
  [0x2B, 0x0D, rw,
   0x00, 0x00, 0x00,
   index / 256 % 256, index % 256,
   subindex,
   0x00, 0x00, 0x00,
   data_length] ++ payload

/-- Python `actual != expected` guarded by `expected is not None`
(packet.py lines 122 and 126). -/
def optMismatch (actual : ℕ) (expected : Option ℕ) : Bool :=
  match expected with
  | some e => actual != e
  | none => false

/-- Checks (1)-(5) of packet.py `ModbusPacketParser.parse_response`, in
source order: minimum frame length, protocol id zero, transaction id,
declared length against actual byte count, non-empty payload.  The Modbus
exception check of lines 103-107 computes the function byte and, when its
high bit is set, the exception code — but the `raise` on it is commented out
in the source, so the check has no effect and is represented here only by
this comment.  Returns `(unit_id, payload)`. -/
def parse_response_prefix (response : List ℕ) (expected_tid : ℕ) :
    Except PyErr (ℕ × List ℕ) :=
  if response.length < 9 then .error .modbusException
  else
    let tid := response.getD 0 0 * 256 + response.getD 1 0
    let proto := response.getD 2 0 * 256 + response.getD 3 0
    let length := response.getD 4 0 * 256 + response.getD 5 0
    let unit_id := response.getD 6 0
    if proto ≠ 0 then .error .modbusException
    else if tid ≠ expected_tid then .error .transactionMismatch
    else if length ≠ response.length - 6 then .error .modbusException
    else
      let payload := response.drop 7
      if payload.length = 0 then .error .modbusException
      else .ok (unit_id, payload)

/-- Check (6) of packet.py `parse_response` (lines 109-129), run only when
`expected_index` is supplied: guard `len(payload) < 10`, read the echoed
index (bytes 5-6, big-endian), subindex (byte 7) and length byte (byte 11 —
a read that raises `IndexError` when the payload has exactly 10 or 11
bytes, since the guard only requires 10), then compare each against the
expectation, raising `ModbusException` on the first mismatch. -/
def parse_echo_checks (payload : List ℕ) (expected_index : ℕ)
    (expected_subindex expected_length : Option ℕ) : Except PyErr Unit :=
  if payload.length < 10 then .error .modbusException
  else if payload.length ≤ 11 then .error .indexError
  else
    let index := payload.getD 5 0 * 256 + payload.getD 6 0
    let subindex := payload.getD 7 0
    let length_byte := payload.getD 11 0
    if index ≠ expected_index then .error .modbusException
    else if optMismatch subindex expected_subindex then .error .modbusException
    else if optMismatch length_byte expected_length then .error .modbusException
    else .ok ()

/-- packet.py `ModbusPacketParser.parse_response`: the structural checks,
then the echo checks when an expected index is supplied. -/
def parse_response (response : List ℕ) (expected_tid : ℕ)
    (expected_index expected_subindex expected_length : Option ℕ) :
    Except PyErr (ℕ × List ℕ) :=
  match parse_response_prefix response expected_tid with
  | .error e => .error e
  | .ok (unit_id, payload) =>
    match expected_index with
    | none => .ok (unit_id, payload)
    | some ei =>
      match parse_echo_checks payload ei expected_subindex expected_length with
      | .error e => .error e
      | .ok _ => .ok (unit_id, payload)

/-- A Python value that can appear where packet.py's parser expects a
response: an actual byte string, or the `(transaction_id, frame)` 2-tuple
that transport.py `send_request` returns — src/protocol.py passes that
tuple itself to the parser. -/
inductive PyResponse where
  | bytes (bs : List ℕ)
  | pair (tid : ℕ) (frame : List ℕ)
deriving DecidableEq

/-- Python `len()` of such a value: the byte count of a byte string, 2 for
a 2-tuple. -/
def PyResponse.pyLen : PyResponse → ℕ
  | .bytes bs => bs.length
  | .pair _ _ => 2

/-- packet.py `parse_response` as invoked on an arbitrary response value:
its first guard is len(response) < 9, which a 2-tuple fails at once (its
len is 2), raising ModbusException (Response too short) before any byte is
inspected.  A byte string proceeds into the byte-level parser above; a
tuple that survived the guard would die with TypeError when struct.unpack
is applied to its first seven items, but no 2-tuple survives the guard. -/
def parse_response_pyval (response : PyResponse) (expected_tid : ℕ)
    (expected_index expected_subindex expected_length : Option ℕ) :
    Except PyErr (ℕ × List ℕ) :=
  if response.pyLen < 9 then .error .modbusException
  else
    match response with
    | .bytes bs =>
      parse_response bs expected_tid expected_index expected_subindex
        expected_length
    | .pair _ _ => .error .typeError

/-- One attempt of the body of protocol.py `DryveSDO.read` (lines 42-56):
build the read request, exchange it, then parse.  Lines 44-45 are
`resp = self.transport.send_request(pdu)` and
`tid = self.transport._transaction_id` — `resp` is send_request's return
value, the `(transaction_id, frame)` 2-TUPLE, not the frame — and line 46
passes that `resp` as `parse_response`'s `response` argument.  The
transport exchange is abstracted as yielding the frame `resp` and the
transaction id `tid` it assigned (after a successful exchange the
transport's `_transaction_id` equals the id used); the parser receives the
pair `(tid, resp)` exactly as the source passes it, so its minimum-length
guard fails every attempt.  The code after the parse — slice the last
`length` bytes of the payload (`payload[-length:]`) and decode them — is
kept as written, though no attempt reaches it. -/
def sdoReadAttempt (od_key : ODKey) (resp : List ℕ) (tid : ℕ) :
    Except PyErr ℚ :=
  let meta := OD_MAP od_key
  match build_read_request od_key with
  | .error e => .error e
  | .ok _ =>
    match parse_response_pyval (.pair tid resp) tid (some meta.index)
        (some meta.subindex) (some meta.length) with
    | .error e => .error e
    | .ok pr =>
      let payload := pr.2
      let data_bytes := payload.drop (payload.length - meta.length)
      unpack_value data_bytes meta.dtype meta.scale

/-- The 3-attempt retry loop of protocol.py `DryveSDO.read` (lines 41-63):
retry with a short delay only on `ModbusException`, re-raise it on the last
attempt, and propagate any other error immediately.  `env i` is the
`(frame, tid)` the transport yields on attempt `i`; the fuel starts at
`_max_attempts = 3` and the fall-through `raise DryveError` of line 63 is
the fuel-0 case (unreachable from fuel 3). -/
def sdoReadLoop (od_key : ODKey) (env : ℕ → List ℕ × ℕ) :
    ℕ → ℕ → Except PyErr ℚ
  | _, 0 => .error .dryveFailed
  | i, n + 1 =>
    match sdoReadAttempt od_key (env i).1 (env i).2 with
    | .ok v => .ok v
    | .error e =>
      if e = .modbusException then
        if n = 0 then .error e else sdoReadLoop od_key env (i + 1) n
      else .error e

/-- protocol.py `DryveSDO.read`: the access check (the `od_key not in
OD_MAP` check of line 34 can never fire, the registry is total on the key
enum), then the retry loop. -/
def DryveSDO_read (od_key : ODKey) (env : ℕ → List ℕ × ℕ) : Except PyErr ℚ :=
  if (OD_MAP od_key).access ≠ .RO ∧ (OD_MAP od_key).access ≠ .RW then
    .error .accessViolation
  else
    sdoReadLoop od_key env 0 3

/-- One attempt of the body of protocol.py `DryveSDO.write` (lines 77-89):
build (and pack) the write request, exchange it, then parse.  As in the
read attempt, line 79's `resp = self.transport.send_request(pdu)` binds the
`(transaction_id, frame)` 2-tuple and lines 82-88 pass that tuple itself to
`parse_response` (expecting the entry's index, subindex and declared
length), so the parser's minimum-length guard fails every attempt. -/
def sdoWriteAttempt (od_key : ODKey) (value : ℚ) (resp : List ℕ) (tid : ℕ) :
    Except PyErr Unit :=
  let meta := OD_MAP od_key
  match build_write_request od_key value with
  | .error e => .error e
  | .ok _ =>
    match parse_response_pyval (.pair tid resp) tid (some meta.index)
        (some meta.subindex) (some meta.length) with
    | .error e => .error e
    | .ok _ => .ok ()

/-- The 3-attempt retry loop of protocol.py `DryveSDO.write` (lines 76-96),
with the same retry policy as the read loop. -/
def sdoWriteLoop (od_key : ODKey) (value : ℚ) (env : ℕ → List ℕ × ℕ) :
    ℕ → ℕ → Except PyErr Unit
  | _, 0 => .error .dryveFailed
  | i, n + 1 =>
    match sdoWriteAttempt od_key value (env i).1 (env i).2 with
    | .ok _ => .ok ()
    | .error e =>
      if e = .modbusException then
        if n = 0 then .error e else sdoWriteLoop od_key value env (i + 1) n
      else .error e

/-- protocol.py `DryveSDO.write`: access check, then the retry loop. -/
def DryveSDO_write (od_key : ODKey) (value : ℚ) (env : ℕ → List ℕ × ℕ) :
    Except PyErr Unit :=
  if (OD_MAP od_key).access ≠ .RW ∧ (OD_MAP od_key).access ≠ .WO then
    .error .accessViolation
  else
    sdoWriteLoop od_key value env 0 3

/-- Modelled from the spec: src/igusd1/packet.py is not among the source
files (only its caller src/igusd1/protocol.py is), so the igusd1 builder
follows the spec's words — the §4.3 builder duties (reject writes against
read-only entries, pack through the codec, assert the packed length equals
the entry's declared length, failing with a length-mismatch error) over
§6's request layout (the 13-byte fixed header: function, MEI type, rw,
three reserved bytes, big-endian index, subindex, three reserved bytes,
data length, then the payload). -/
def spec_build_write_request (od_key : ODKey) (value : ℚ) :
    Except PyErr (List ℕ) :=
  let obj := OD_MAP od_key
  if obj.access = .RO then .error .accessViolation
  else
    match pack_value value obj.dtype obj.scale with
    | .error e => .error e
    | .ok packed_data =>
      if packed_data.length ≠ obj.length then .error .valueError
      else .ok (specC7RequestLayout 1 obj.index obj.subindex obj.length
        packed_data)

/-- Modelled from the spec: the igusd1 parser follows §4.3's six parser
steps over §6's response layout — the response PDU mirrors the request's
13-byte fixed fields, so the echoed index sits at payload bytes 6-7, the
subindex at byte 8 and the length byte at byte 12.  In source-spec order:
(1) reject responses shorter than the fixed 7-byte MBAP header; (2) the
protocol-id field must be zero; (3) the transaction id must equal the
expected one, else TransactionMismatch; (4) the declared frame length must
equal the actual remaining byte count, else a framing error; (5) a
Modbus-style exception response — high bit set on the function/echo byte —
surfaces ModbusException (the numeric code, the following byte, is not
carried by this model's error type); (6) when expectations are supplied,
the echoed index, subindex and length byte are validated, else a mismatch
error.  The spec leaves the framing and mismatch errors unnamed but its
error taxonomy retries only ModbusException and calls a mismatch a
non-retryable protocol error, so they are modelled as the distinct
`protocolError`.  Returns `(unit_id, payload)`. -/
def spec_parse_response (response : List ℕ) (expected_tid : ℕ)
    (expected_index expected_subindex expected_length : Option ℕ) :
    Except PyErr (ℕ × List ℕ) :=
  if response.length < 7 then .error .protocolError
  else
    let tid := response.getD 0 0 * 256 + response.getD 1 0
    let proto := response.getD 2 0 * 256 + response.getD 3 0
    let length := response.getD 4 0 * 256 + response.getD 5 0
    let unit_id := response.getD 6 0
    if proto ≠ 0 then .error .protocolError
    else if tid ≠ expected_tid then .error .transactionMismatch
    else if length ≠ response.length - 6 then .error .protocolError
    else
      let payload := response.drop 7
      if payload.getD 0 0 &&& 0x80 ≠ 0 then .error .modbusException
      else
        match expected_index with
        | none => .ok (unit_id, payload)
        | some ei =>
          let index := payload.getD 6 0 * 256 + payload.getD 7 0
          let subindex := payload.getD 8 0
          let length_byte := payload.getD 12 0
          if index ≠ ei then .error .protocolError
          else if optMismatch subindex expected_subindex then
            .error .protocolError
          else if optMismatch length_byte expected_length then
            .error .protocolError
          else .ok (unit_id, payload)

/-- One attempt of the body of src/igusd1/protocol.py `DryveSDO.write`
(lines 64-70): build the write request, exchange it, then parse.  Unlike
src/protocol.py, line 67 unpacks the transport's return value —
`tid, resp = self.transport.send_request(pdu)` — so the actual frame
reaches the parser; line 69 passes `expected_length=None`, so the echoed
length byte is not checked.  Builder and parser are the spec-modelled ones
above, src/igusd1/packet.py being absent from the sources. -/
def igusd1WriteAttempt (od_key : ODKey) (value : ℚ) (resp : List ℕ)
    (tid : ℕ) : Except PyErr Unit :=
  let meta := OD_MAP od_key
  match spec_build_write_request od_key value with
  | .error e => .error e
  | .ok _ =>
    match spec_parse_response resp tid (some meta.index)
        (some meta.subindex) none with
    | .error e => .error e
    | .ok _ => .ok ()

/-- The 3-attempt retry loop of src/igusd1/protocol.py `DryveSDO.write`
(same policy as the src loop). -/
def igusd1WriteLoop (od_key : ODKey) (value : ℚ) (env : ℕ → List ℕ × ℕ) :
    ℕ → ℕ → Except PyErr Unit
  | _, 0 => .error .dryveFailed
  | i, n + 1 =>
    match igusd1WriteAttempt od_key value (env i).1 (env i).2 with
    | .ok _ => .ok ()
    | .error e =>
      if e = .modbusException then
        if n = 0 then .error e else igusd1WriteLoop od_key value env (i + 1) n
      else .error e

/-- src/igusd1/protocol.py `DryveSDO.write`: access check, then the loop. -/
def Igusd1_write (od_key : ODKey) (value : ℚ) (env : ℕ → List ℕ × ℕ) :
    Except PyErr Unit :=
  if (OD_MAP od_key).access ≠ .RW ∧ (OD_MAP od_key).access ≠ .WO then
    .error .accessViolation
  else
    igusd1WriteLoop od_key value env 0 3

/-- CiA-402 drive states of state_bits.py's `DriveState` enum. -/
inductive DriveState where
  | NOT_READY_TO_SWITCH_ON
  | SWITCH_ON_DISABLED
  | READY_TO_SWITCH_ON
  | SWITCHED_ON
  | OPERATION_ENABLED
  | QUICK_STOP_ACTIVE
  | FAULT_REACTION_ACTIVE
  | FAULT
deriving DecidableEq

/-- state_bits.py `parse_drive_state`: the mask/value decision chain, in
source order, with `NOT_READY_TO_SWITCH_ON` as the fallback. -/
def parse_drive_state (statusword : ℕ) : DriveState :=
  if statusword &&& 0x004F = 0x0000 then .NOT_READY_TO_SWITCH_ON
  else if statusword &&& 0x006F = 0x0040 then .SWITCH_ON_DISABLED
  else if statusword &&& 0x006F = 0x0021 then .READY_TO_SWITCH_ON
  else if statusword &&& 0x006F = 0x0023 then .SWITCHED_ON
  else if statusword &&& 0x006F = 0x0027 then .OPERATION_ENABLED
  else if statusword &&& 0x006F = 0x0007 then .QUICK_STOP_ACTIVE
  else if statusword &&& 0x004F = 0x000F then .FAULT_REACTION_ACTIVE
  else if statusword &&& 0x004F = 0x0008 then .FAULT
  else .NOT_READY_TO_SWITCH_ON

/-- state_bits.py `SW_FAULT` (bit 3). -/
def SW_FAULT : ℕ := 0x0008

/-- state_bits.py `Statusword.fault`: `bool(value & SW_FAULT)`. -/
def Statusword_fault (value : ℕ) : Bool := value &&& SW_FAULT != 0

/-- state_bits.py `controlword_for_state`: the `DriveState → Controlword`
lookup table (`mapping.get(state, 0x0000)`; `FAULT_REACTION_ACTIVE` is not
in the dict, so it yields the 0x0000 default). -/
def controlword_for_state : DriveState → ℕ
  | .NOT_READY_TO_SWITCH_ON => 0x0000
  | .SWITCH_ON_DISABLED => 0x0000
  | .READY_TO_SWITCH_ON => 0x0006
  | .SWITCHED_ON => 0x0007
  | .OPERATION_ENABLED => 0x000F
  | .QUICK_STOP_ACTIVE => 0x0002
  | .FAULT => 0x0080
  | .FAULT_REACTION_ACTIVE => 0x0000

/-- The Statusword decode table exactly as the spec's §6 lists it:
(mask, value, DriveState) rows, evaluated in order. -/
def statuswordDecodeRows : List (ℕ × ℕ × DriveState) :=
  [(0x004F, 0x0000, .NOT_READY_TO_SWITCH_ON),
   (0x006F, 0x0040, .SWITCH_ON_DISABLED),
   (0x006F, 0x0021, .READY_TO_SWITCH_ON),
   (0x006F, 0x0023, .SWITCHED_ON),
   (0x006F, 0x0027, .OPERATION_ENABLED),
   (0x006F, 0x0007, .QUICK_STOP_ACTIVE),
   (0x004F, 0x000F, .FAULT_REACTION_ACTIVE),
   (0x004F, 0x0008, .FAULT)]

/-- First-match evaluation of a mask/value row table, with the spec's
fallback `NOT_READY_TO_SWITCH_ON`. -/
def decodeByTable : List (ℕ × ℕ × DriveState) → ℕ → DriveState
  | [], _ => .NOT_READY_TO_SWITCH_ON
  | (mask, val, st) :: rest, sw =>
    if sw &&& mask = val then st else decodeByTable rest sw

/-- Outcome of one `wait_for_state` call. -/
inductive WaitResult where
  | ok
  | faultState
  | opTimeout
deriving DecidableEq

/-- machine.py `DriveStateMachine.wait_for_state`, with wall-clock time
abstracted: `polls` lists the Statusword values read by the loop iterations
that start before the deadline (an empty list means the deadline had
already elapsed).  Each iteration raises `FaultState` when the Fault bit is
set, returns when the decoded state equals the target, else sleeps and
retries; exhausting the deadline raises `OperationTimeout`. -/
def wait_for_state (target : DriveState) : List ℕ → WaitResult
  | [] => .opTimeout
  | sw :: rest =>
    if Statusword_fault sw then .faultState
    else if parse_drive_state sw = target then .ok
    else wait_for_state target rest

/-- SDO-level operations a state-machine method can issue, used to record
the trace of a `fault_reset` call. -/
inductive SdoOp where
  | writeOp (key : ODKey) (value : ℤ)
  | readOp (key : ODKey)
  | waitFor (target : DriveState)
deriving DecidableEq

/-- machine.py `DriveStateMachine.fault_reset` as the sequence of SDO-level
operations it issues, given the Statusword value `sw` its read returns:
`set_mode(6)` then `set_mode(1)` (each an `sdo.write(MODE_OF_OPERATION,
mode)`, machine.py lines 65-66 and 84-86), then `_read_statusword`; when
the Fault bit is clear it returns there; otherwise it writes the
fault-reset controlword and waits for `SWITCH_ON_DISABLED`. -/
def fault_reset (sw : ℕ) : List SdoOp :=
  [.writeOp .MODE_OF_OPERATION 6, .writeOp .MODE_OF_OPERATION 1,
   .readOp .STATUSWORD] ++
  (if Statusword_fault sw then
    [.writeOp .CONTROLWORD (controlword_for_state .FAULT),
     .waitFor .SWITCH_ON_DISABLED]
   else [])

/-- The transport state relevant to transaction ids and the heartbeat:
whether the socket is open (`_sock is not None`), the transaction-id
counter, and whether the heartbeat loop is alive (stop event not set,
thread running). -/
structure TransportState where
  sockOpen : Bool
  transactionId : ℕ
  hbAlive : Bool
deriving DecidableEq

/-- transport.py `stop_heartbeat`: sets the stop event and joins the
thread, ending the heartbeat loop. -/
def stop_heartbeat (s : TransportState) : TransportState :=
  { s with hbAlive := false }

/-- transport.py `close`: first `stop_heartbeat()`, then shut the socket
down and null it. -/
def tclose (s : TransportState) : TransportState :=
  { stop_heartbeat s with sockOpen := false }

/-- transport.py `connect`, success path: `close()` the old connection
(which stops the heartbeat), open the new socket, and reset
`_transaction_id = 0` (line 81). -/
def connectOk (s : TransportState) : TransportState :=
  { tclose s with sockOpen := true, transactionId := 0 }

/-- transport.py `_next_transaction_id`: `(tid + 1) & 0xFFFF`, returning
the new value. -/
def nextTransactionId (s : TransportState) : TransportState × ℕ :=
  let t := (s.transactionId + 1) % 65536
  ({ s with transactionId := t }, t)

/-- One attempt of transport.py `send_request`'s retry loop (lines
152-190): lazily `connect()` when the socket is closed, allocate the next
transaction id, then perform the framed send/receive exchange.  The
network's behaviour for the attempt is `env : Bool × Bool` — `env.1` is
whether a connect attempt would succeed, `env.2` whether the exchange
succeeds.  Any failure is caught by the `except` clause, which runs
`self.close()` (stopping the heartbeat) and sleeps before the next
attempt. -/
def sendAttempt (s : TransportState) (env : Bool × Bool) :
    TransportState × Option ℕ :=
  if s.sockOpen = false ∧ env.1 = false then
    (tclose s, none)
  else
    let s1 := if s.sockOpen then s else connectOk s
    let p := nextTransactionId s1
    if env.2 then (p.1, some p.2) else (tclose p.1, none)

/-- The bounded retry loop of `send_request`: `i` indexes attempts into the
environment, the fuel starts at `max_retries`; exhausting it raises the
terminal `TransportError` (`none`). -/
def sendRequestGo (env : ℕ → Bool × Bool) : ℕ → ℕ → TransportState →
    TransportState × Option ℕ
  | _, 0, s => (s, none)
  | i, n + 1, s =>
    match sendAttempt s (env i) with
    | (s1, some t) => (s1, some t)
    | (s1, none) => sendRequestGo env (i + 1) n s1

/-- transport.py `send_request` with the default `max_retries = 3`:
returns the final transport state and `some tid` on success, `none` when
the attempts are exhausted. -/
def send_request (s : TransportState) (env : ℕ → Bool × Bool) :
    TransportState × Option ℕ :=
  sendRequestGo env 0 3 s

/-- transport.py `_heartbeat_loop`, at exchange granularity: each iteration
first checks the stop event (`hbAlive`), then issues one heartbeat read
through `send_request`, swallowing any exception (the `except Exception`
clause only logs).  `envs k` is the attempt environment of the iteration
taken with fuel `k + 1` remaining; the fuel bounds how many iterations are
considered. -/
def heartbeatLoop (envs : ℕ → ℕ → Bool × Bool) : ℕ → TransportState →
    TransportState
  | 0, s => s
  | n + 1, s =>
    if s.hbAlive then heartbeatLoop envs n (send_request s (envs n)).1
    else s

theorem toLEBytes_length (n w : ℕ) : (toLEBytes n w).length = w := by
  induction w generalizing n with
  | zero => rfl
  | succ w ih => simp [toLEBytes, ih]

theorem fromLEBytes_toLEBytes (n w : ℕ) (h : n < 256 ^ w) :
    fromLEBytes (toLEBytes n w) = n := by
  induction w generalizing n with
  | zero =>
    simp only [pow_zero, Nat.lt_one_iff] at h
    simp [toLEBytes, fromLEBytes, h]
  | succ w ih =>
    have hd : n / 256 < 256 ^ w := by
      rw [Nat.div_lt_iff_lt_mul (by norm_num)]
      calc n < 256 ^ (w + 1) := h
        _ = 256 ^ w * 256 := by rw [pow_succ]
    simp only [toLEBytes, fromLEBytes, ih _ hd]
    omega

theorem structPackInt_roundtrip (sgnd : Bool) (w : ℕ) (n : ℤ) (bs : List ℕ)
    (hw : 0 < w) (h : structPackInt sgnd w n = .ok bs) :
    bs.length = w ∧ structUnpackInt sgnd w bs = .ok n := by
  have hKpos : (0:ℤ) < 2 ^ (8 * w) := by positivity
  have h1 : 0 ≤ n % 2 ^ (8 * w) := Int.emod_nonneg n (ne_of_gt hKpos)
  have h2 : n % 2 ^ (8 * w) < 2 ^ (8 * w) := Int.emod_lt_of_pos n hKpos
  have hmz : ((n % 2 ^ (8 * w)).toNat : ℤ) = n % 2 ^ (8 * w) :=
    Int.toNat_of_nonneg h1
  have hcastw : ((2 ^ (8 * w) : ℕ) : ℤ) = 2 ^ (8 * w) := by push_cast; rfl
  have hcasth : ((2 ^ (8 * w - 1) : ℕ) : ℤ) = 2 ^ (8 * w - 1) := by
    push_cast; rfl
  have h256 : (256 : ℕ) ^ w = 2 ^ (8 * w) := by
    rw [show (256 : ℕ) = 2 ^ 8 from rfl, ← pow_mul]
  have hK2 : (2 ^ (8 * w) : ℤ) = 2 * 2 ^ (8 * w - 1) := by
    have h8 : 8 * w = (8 * w - 1) + 1 := by omega
    nth_rewrite 1 [h8]
    rw [pow_succ, mul_comm]
  have hshift : (n + 2 ^ (8 * w)) % 2 ^ (8 * w) = n % 2 ^ (8 * w) := by
    have e1 := Int.add_mul_emod_self_left n (2 ^ (8 * w)) 1
    rw [mul_one] at e1
    exact e1
  cases sgnd with
  | false =>
    simp only [structPackInt] at h
    split at h
    case isFalse => exact absurd h (by simp)
    case isTrue hc =>
      injection h with h
      subst h
      have hn : n % 2 ^ (8 * w) = n := Int.emod_eq_of_lt hc.1 hc.2
      refine ⟨toLEBytes_length _ _, ?_⟩
      unfold structUnpackInt
      rw [if_pos (toLEBytes_length _ _), fromLEBytes_toLEBytes _ _ (by omega)]
      refine congrArg Except.ok ?_
      rw [if_neg (by simp)]
      omega
  | true =>
    simp only [structPackInt] at h
    split at h
    case isFalse => exact absurd h (by simp)
    case isTrue hc =>
      injection h with h
      subst h
      have hnK : n % 2 ^ (8 * w) = n ∨ n % 2 ^ (8 * w) = n + 2 ^ (8 * w) := by
        rcases le_or_lt 0 n with hn | hn
        · exact Or.inl (Int.emod_eq_of_lt hn (by omega))
        · refine Or.inr ?_
          rw [← hshift]
          exact Int.emod_eq_of_lt (by omega) (by omega)
      refine ⟨toLEBytes_length _ _, ?_⟩
      unfold structUnpackInt
      rw [if_pos (toLEBytes_length _ _), fromLEBytes_toLEBytes _ _ (by omega)]
      refine congrArg Except.ok ?_
      split
      case isTrue hcond =>
        have := hcond.2
        omega
      case isFalse hcond =>
        simp only [true_and, not_le] at hcond
        omega

theorem neg_tmod_left (a b : ℤ) : (-a).tmod b = -(a.tmod b) := by
  rw [Int.tmod_def, Int.tmod_def, Int.neg_tdiv]; ring

theorem pyInt_abs_sub_lt (q : ℚ) : |(pyInt q : ℚ) - q| < 1 := by
  have hd : (0:ℤ) < (q.den : ℤ) := by exact_mod_cast q.pos
  have hb1 : -(q.den:ℤ) < q.num.tmod q.den := by
    rcases le_or_lt 0 q.num with hn | hn
    · have := Int.tmod_nonneg (q.den:ℤ) hn
      omega
    · have h1 : (0:ℤ) ≤ (-q.num).tmod q.den := Int.tmod_nonneg _ (by omega)
      have h2 : (-q.num).tmod q.den < q.den := Int.tmod_lt_of_pos _ hd
      have h3 : (-q.num).tmod q.den = -(q.num.tmod q.den) := neg_tmod_left _ _
      omega
  have hb2 : q.num.tmod q.den < q.den := by
    rcases le_or_lt 0 q.num with hn | hn
    · exact Int.tmod_lt_of_pos _ hd
    · have h1 : (0:ℤ) ≤ (-q.num).tmod q.den := Int.tmod_nonneg _ (by omega)
      have h3 : (-q.num).tmod q.den = -(q.num.tmod q.den) := neg_tmod_left _ _
      omega
  have hdpos : (0:ℚ) < (q.den : ℚ) := by exact_mod_cast Rat.den_pos q
  have hnum : (q.num : ℚ) = q * (q.den : ℚ) :=
    (div_eq_iff hdpos.ne').mp (Rat.num_div_den q)
  have htQ : ((q.den : ℕ) : ℚ) * ((q.num.tdiv (q.den:ℤ) : ℤ) : ℚ) +
      ((q.num.tmod (q.den:ℤ) : ℤ) : ℚ) = (q.num : ℚ) := by
    exact_mod_cast congrArg (fun z : ℤ => (z : ℚ))
      (Int.tdiv_add_tmod q.num (q.den:ℤ))
  have hkey : (pyInt q : ℚ) - q =
      (-((q.num.tmod (q.den:ℤ) : ℤ) : ℚ)) / (q.den : ℚ) := by
    rw [eq_div_iff hdpos.ne', pyInt]
    linear_combination htQ + hnum
  rw [hkey, abs_div, abs_of_pos hdpos, div_lt_one hdpos, abs_neg,
    ← Int.cast_abs]
  exact_mod_cast abs_lt.mpr ⟨hb1, hb2⟩

theorem pyInt_den_one (q : ℚ) (h : q.den = 1) : (pyInt q : ℚ) = q := by
  rw [pyInt, h]
  simp only [Nat.cast_one, Int.tdiv_one]
  exact Rat.coe_int_num_of_den_eq_one h

theorem scaled_div_scale (s v : ℚ) (hs : s ≠ 0) :
    (if s ≠ 1 then v * s else v) / s = v := by
  split
  · exact mul_div_cancel_right₀ v hs
  · next h =>
    rw [not_not.mp h, div_one]

theorem applyScale_eq_div (s x : ℚ) : (if s ≠ 1 then x / s else x) = x / s := by
  split
  · rfl
  · next h =>
    rw [not_not.mp h, div_one]

theorem num_toNat_cast (x : ℚ) (hden : x.den = 1) (hnn : 0 ≤ x.num) :
    ((x.num.toNat : ℕ) : ℚ) = x := by
  rw [show ((x.num.toNat : ℕ) : ℚ) = ((x.num : ℤ) : ℚ) by
    exact_mod_cast congrArg (fun z : ℤ => (z : ℚ)) (Int.toNat_of_nonneg hnn)]
  exact Rat.coe_int_num_of_den_eq_one hden

theorem f32encodePos_spec (a : ℚ) (e m : ℕ) (h : f32encodePos a = some (e, m)) :
    e ≤ 254 ∧ m < 2 ^ 23 ∧ f32val e m = a := by
  simp only [f32encodePos] at h
  split at h
  case isTrue hE =>
    split at h
    case isFalse => exact absurd h (by simp)
    case isTrue hM =>
      injection h with h
      injection h with h1 h2
      subst h1
      subst h2
      obtain ⟨hden, hlo, hhi⟩ := hM
      refine ⟨by omega, by omega, ?_⟩
      have he0 : (qlog2 a + 127).toNat ≠ 0 := by omega
      rw [f32val, if_neg he0]
      have hm_eq : 2 ^ 23 + ((a * 2 ^ (23 - qlog2 a)).num - 2 ^ 23).toNat =
          (a * 2 ^ (23 - qlog2 a)).num.toNat := by omega
      rw [hm_eq, num_toNat_cast _ hden (by omega)]
      have he_cast : (((qlog2 a + 127).toNat : ℕ) : ℤ) - 150 = -(23 - qlog2 a) := by
        omega
      rw [he_cast, zpow_neg]
      exact mul_inv_cancel_right₀ (zpow_ne_zero _ two_ne_zero) a
  case isFalse hE =>
    split at h
    case isFalse => exact absurd h (by simp)
    case isTrue hM =>
      injection h with h
      injection h with h1 h2
      subst h1
      subst h2
      obtain ⟨hden, hlo, hhi⟩ := hM
      refine ⟨by omega, by omega, ?_⟩
      rw [f32val, if_pos rfl]
      rw [num_toNat_cast _ hden (by omega), zpow_neg]
      exact mul_inv_cancel_right₀ (zpow_ne_zero _ two_ne_zero) a

theorem f32bits_spec (v : ℚ) (b : ℕ) (h : f32bits v = some b) :
    b < 2 ^ 32 ∧ f32decode b = some v := by
  simp only [f32bits] at h
  split at h
  case isTrue hv =>
    injection h with h
    subst h
    subst hv
    refine ⟨by norm_num, ?_⟩
    simp [f32decode, f32val]
  case isFalse hv =>
    rcases hfe : f32encodePos |v| with _ | em
    · rw [hfe] at h
      exact absurd h (by simp)
    · obtain ⟨e, m⟩ := em
      rw [hfe] at h
      injection h with h
      obtain ⟨he254, hm23, hval⟩ := f32encodePos_spec _ _ _ hfe
      subst h
      rcases lt_or_le v 0 with hneg | hpos
      · rw [if_pos hneg]
        refine ⟨by omega, ?_⟩
        simp only [f32decode]
        have hs : (1 * 2 ^ 31 + e * 2 ^ 23 + m) / 2 ^ 31 = 1 := by omega
        have he : (1 * 2 ^ 31 + e * 2 ^ 23 + m) / 2 ^ 23 % 2 ^ 8 = e := by omega
        have hm : (1 * 2 ^ 31 + e * 2 ^ 23 + m) % 2 ^ 23 = m := by omega
        rw [hs, he, hm, if_neg (by omega)]
        refine congrArg some ?_
        rw [if_pos rfl, hval, abs_of_neg hneg]
        ring
      · rw [if_neg (not_lt.mpr hpos)]
        have hvpos : 0 < v := lt_of_le_of_ne hpos (Ne.symm hv)
        refine ⟨by omega, ?_⟩
        simp only [f32decode]
        have hs : (0 * 2 ^ 31 + e * 2 ^ 23 + m) / 2 ^ 31 = 0 := by omega
        have he : (0 * 2 ^ 31 + e * 2 ^ 23 + m) / 2 ^ 23 % 2 ^ 8 = e := by omega
        have hm : (0 * 2 ^ 31 + e * 2 ^ 23 + m) % 2 ^ 23 = m := by omega
        rw [hs, he, hm, if_neg (by omega)]
        refine congrArg some ?_
        rw [if_neg (by norm_num), hval, abs_of_pos hvpos]
        ring

theorem intC9aux (sgnd : Bool) (w : ℕ) (hw : 0 < w) (s v : ℚ) (bs : List ℕ)
    (hs : s ≠ 0)
    (hp : structPackInt sgnd w (pyInt (if s ≠ 1 then v * s else v)) = .ok bs) :
    bs.length = w ∧
    ∃ u : ℚ,
      ((structUnpackInt sgnd w bs).map (fun n => (n : ℚ))).map
          (fun val => if s ≠ 1 then val / s else val) = .ok u ∧
      |u - v| < 1 / |s| ∧
      ((if s ≠ 1 then v * s else v).den = 1 → u = v) := by
  obtain ⟨hlen, hunp⟩ := structPackInt_roundtrip _ _ _ _ hw hp
  have habs : (0:ℚ) < |s| := abs_pos.mpr hs
  have hv : (if s ≠ 1 then v * s else v) / s = v := scaled_div_scale s v hs
  refine ⟨hlen,
    (if s ≠ 1 then (pyInt (if s ≠ 1 then v * s else v) : ℚ) / s
     else (pyInt (if s ≠ 1 then v * s else v) : ℚ)), ?_, ?_, ?_⟩
  · rw [hunp]
    rfl
  · rw [applyScale_eq_div]
    calc |(pyInt (if s ≠ 1 then v * s else v) : ℚ) / s - v|
        = |(pyInt (if s ≠ 1 then v * s else v) : ℚ) / s -
            (if s ≠ 1 then v * s else v) / s| := by rw [hv]
      _ = |((pyInt (if s ≠ 1 then v * s else v) : ℚ) -
            (if s ≠ 1 then v * s else v)) / s| := by rw [div_sub_div_same]
      _ = |(pyInt (if s ≠ 1 then v * s else v) : ℚ) -
            (if s ≠ 1 then v * s else v)| / |s| := abs_div _ _
      _ < 1 / |s| := by
          rw [div_lt_div_iff₀ habs habs]
          exact mul_lt_mul_of_pos_right (pyInt_abs_sub_lt _) habs
  · intro hden
    rw [applyScale_eq_div, pyInt_den_one _ hden]
    exact scaled_div_scale s v hs

/-- C9: for every recognized data type `t`, nonzero scale `s` and value `v`
that `pack_value` accepts, the packed bytes have exactly `t`'s byte width and
`unpack_value` recovers `v` up to the truncation error implied by integer
types (error strictly below `1 / |s|`, and exactly `v` whenever the scaled
value needed no truncation; the binary32 branch is exact on its modelled
domain). -/
theorem C9_codec_roundtrip (t : DataType) (s v : ℚ) (bs : List ℕ)
    (hs : s ≠ 0) (hp : pack_value v t s = .ok bs) :
    bs.length = t.width ∧
    ∃ u : ℚ, unpack_value bs t s = .ok u ∧ |u - v| < 1 / |s| ∧
      (((if s ≠ 1 then v * s else v).den = 1 ∨ t = .FLOAT32) → u = v) := by
  cases t with
  | FLOAT32 =>
    simp only [pack_value] at hp
    rcases hb : f32bits (if s ≠ 1 then v * s else v) with _ | b
    · rw [hb] at hp
      exact absurd hp (by simp)
    · rw [hb] at hp
      injection hp with hp
      subst hp
      obtain ⟨hblt, hdec⟩ := f32bits_spec _ _ hb
      have hb256 : b < 256 ^ 4 := by
        have : (256:ℕ) ^ 4 = 2 ^ 32 := by norm_num
        omega
      refine ⟨toLEBytes_length _ _, (if s ≠ 1 then v * s else v) / s, ?_, ?_, ?_⟩
      · simp only [unpack_value]
        rw [if_pos (toLEBytes_length b 4), fromLEBytes_toLEBytes _ _ hb256, hdec]
        simp only [Except.map]
        rw [applyScale_eq_div]
      · rw [scaled_div_scale s v hs, sub_self, abs_zero]
        exact one_div_pos.mpr (abs_pos.mpr hs)
      · intro _
        exact scaled_div_scale s v hs
  | UINT8 =>
    simp only [pack_value] at hp
    obtain ⟨hlen, u, hu, hb, hex⟩ := intC9aux false 1 one_pos s v bs hs hp
    exact ⟨hlen, u, hu, hb, fun hd => hd.elim hex (fun hfl => by cases hfl)⟩
  | INT8 =>
    simp only [pack_value] at hp
    obtain ⟨hlen, u, hu, hb, hex⟩ := intC9aux true 1 one_pos s v bs hs hp
    exact ⟨hlen, u, hu, hb, fun hd => hd.elim hex (fun hfl => by cases hfl)⟩
  | UINT16 =>
    simp only [pack_value] at hp
    obtain ⟨hlen, u, hu, hb, hex⟩ := intC9aux false 2 two_pos s v bs hs hp
    exact ⟨hlen, u, hu, hb, fun hd => hd.elim hex (fun hfl => by cases hfl)⟩
  | INT16 =>
    simp only [pack_value] at hp
    obtain ⟨hlen, u, hu, hb, hex⟩ := intC9aux true 2 two_pos s v bs hs hp
    exact ⟨hlen, u, hu, hb, fun hd => hd.elim hex (fun hfl => by cases hfl)⟩
  | UINT32 =>
    simp only [pack_value] at hp
    obtain ⟨hlen, u, hu, hb, hex⟩ := intC9aux false 4 four_pos s v bs hs hp
    exact ⟨hlen, u, hu, hb, fun hd => hd.elim hex (fun hfl => by cases hfl)⟩
  | INT32 =>
    simp only [pack_value] at hp
    obtain ⟨hlen, u, hu, hb, hex⟩ := intC9aux true 4 four_pos s v bs hs hp
    exact ⟨hlen, u, hu, hb, fun hd => hd.elim hex (fun hfl => by cases hfl)⟩

/-- Witness for C9: packing `-5/2` as INT32 with scale 100 gives the 4-byte
little-endian encoding of `-250`, and unpacking recovers `-5/2` exactly. -/
theorem C9_codec_roundtrip_witness :
    [6, 255, 255, 255].length = DataType.width .INT32 ∧
    ∃ u : ℚ, unpack_value [6, 255, 255, 255] .INT32 100 = .ok u ∧
      |u - (-5/2)| < 1 / |(100:ℚ)| ∧
      (((if (100:ℚ) ≠ 1 then (-5/2 : ℚ) * 100 else (-5/2 : ℚ)).den = 1 ∨
          DataType.INT32 = DataType.FLOAT32) → u = -5/2) :=
  C9_codec_roundtrip .INT32 100 (-5/2) [6, 255, 255, 255] (by norm_num)
    (by with_unfolding_all rfl)

/-- C7 counterexample: the builder's read request for `statusword` is a
12-byte PDU whose sixth byte is the index high byte, so it does not match
the claimed 13-byte layout with three reserved bytes after the rw flag for
any payload. -/
theorem C7_counterexample :
    build_read_request .STATUSWORD =
      .ok [0x2B, 0x0D, 0x00, 0x00, 0x00, 0x60, 0x41,
           0x00, 0x00, 0x00, 0x00, 0x02] ∧
    ∀ payload, specC7RequestLayout 0 0x6041 0 2 payload ≠
      [0x2B, 0x0D, 0x00, 0x00, 0x00, 0x60, 0x41,
       0x00, 0x00, 0x00, 0x00, 0x02] := by
  refine ⟨rfl, ?_⟩
  intro payload h
  simp [specC7RequestLayout] at h

/-- C7 (amended): every request PDU emitted by the builder has the byte
layout function 0x2B, MEI type 0x0D, rw (0 read / 1 write), TWO reserved
zero bytes, big-endian index, subindex, three reserved zero bytes,
data length, followed (for write requests only) by exactly `data_length`
payload bytes. -/
theorem C7_request_layout (k : ODKey) :
    (∀ pdu, build_read_request k = .ok pdu →
      pdu = [0x2B, 0x0D, 0x00, 0x00, 0x00,
             (OD_MAP k).index / 256 % 256, (OD_MAP k).index % 256,
             (OD_MAP k).subindex, 0x00, 0x00, 0x00, (OD_MAP k).length]) ∧
    (∀ v pdu, build_write_request k v = .ok pdu →
      ∃ payload, payload.length = (OD_MAP k).length ∧
        pdu = [0x2B, 0x0D, 0x01, 0x00, 0x00,
               (OD_MAP k).index / 256 % 256, (OD_MAP k).index % 256,
               (OD_MAP k).subindex, 0x00, 0x00, 0x00, (OD_MAP k).length]
          ++ payload) := by
  constructor
  · intro pdu h
    simp only [build_read_request] at h
    split at h
    · exact absurd h (by simp)
    · injection h with h
      exact h.symm
  · intro v pdu h
    simp only [build_write_request] at h
    split at h
    · exact absurd h (by simp)
    · split at h
      · exact absurd h (by simp)
      · rename_i packed_data hp
        split at h
        · exact absurd h (by simp)
        · rename_i hlen
          injection h with h
          refine ⟨packed_data, by omega, h.symm⟩

/-- Witness for C7 (amended), at the `statusword` read request. -/
theorem C7_request_layout_witness :
    [0x2B, 0x0D, 0x00, 0x00, 0x00, 0x60, 0x41, 0x00, 0x00, 0x00, 0x00, 0x02] =
      [0x2B, 0x0D, 0x00, 0x00, 0x00,
       (OD_MAP .STATUSWORD).index / 256 % 256, (OD_MAP .STATUSWORD).index % 256,
       (OD_MAP .STATUSWORD).subindex, 0x00, 0x00, 0x00,
       (OD_MAP .STATUSWORD).length] :=
  (C7_request_layout .STATUSWORD).1 _ rfl

/-- C1: code-bug evidence.  The frame below is a well-formed Modbus
exception response (function byte 0xAB = 0x2B with the high bit set,
exception code 0x03), yet `parse_response` returns it as a successful
result `(unit_id, payload)` instead of raising `ModbusException` with the
code: the `raise` in packet.py line 107 is commented out, contradicting the
parser's own docstring ("с проверкой transaction ID и exception"), the
`ModbusException` docstring in exceptions.py, and spec §4.3 step (5). -/
theorem C1_exception_frame_returned_as_success :
    (0xAB &&& 0x80 ≠ 0) ∧
    parse_response [0x00, 0x01, 0x00, 0x00, 0x00, 0x03, 0x01, 0xAB, 0x03]
        1 none none none = .ok (1, [0xAB, 0x03]) := by
  exact ⟨by decide, by rfl⟩

/-- Every attempt of src/protocol.py's read fails the parser's
minimum-length guard — `parse_response` receives send_request's 2-tuple —
and thus yields `ModbusException`, whatever frame the transport returned
(no Object Dictionary entry is write-only, so the builder always
succeeds). -/
theorem sdoReadAttempt_always_modbus (k : ODKey) (resp : List ℕ)
    (tid : ℕ) : sdoReadAttempt k resp tid = .error .modbusException := by
  have hacc : ¬(OD_MAP k).access = .WO := by cases k <;> decide
  simp [sdoReadAttempt, build_read_request, hacc, parse_response_pyval,
    PyResponse.pyLen]

/-- With the tuple reaching the parser, every non-final read attempt is
retried: one loop step consumes one unit of fuel. -/
theorem sdoReadLoop_retry (k : ODKey) (env : ℕ → List ℕ × ℕ) (i n : ℕ) :
    sdoReadLoop k env i (n + 1 + 1) = sdoReadLoop k env (i + 1) (n + 1) := by
  simp [sdoReadLoop, sdoReadAttempt_always_modbus]

/-- The read retry loop, started with any positive fuel, ends by re-raising
`ModbusException` after its last attempt. -/
theorem sdoReadLoop_always_modbus (k : ODKey) (env : ℕ → List ℕ × ℕ) :
    ∀ n i, sdoReadLoop k env i (n + 1) = .error .modbusException := by
  intro n
  induction n with
  | zero => intro i; simp [sdoReadLoop, sdoReadAttempt_always_modbus]
  | succ p ih => intro i; rw [sdoReadLoop_retry k env i p]; exact ih (i + 1)

/-- src/protocol.py's composed read: the access check passes for every key
(every entry is RO or RW), all three attempts fail as `ModbusException`,
and the loop re-raises it. -/
theorem DryveSDO_read_always_modbus (k : ODKey) (env : ℕ → List ℕ × ℕ) :
    DryveSDO_read k env = .error .modbusException := by
  have hacc : ¬((OD_MAP k).access ≠ .RO ∧ (OD_MAP k).access ≠ .RW) := by
    cases k <;> decide
  simp only [DryveSDO_read]
  rw [if_neg hacc]
  exact sdoReadLoop_always_modbus k env 2 0

/-- The write counterpart: once the builder succeeds, the attempt hands the
parser the 2-tuple and fails its minimum-length guard as
`ModbusException`. -/
theorem sdoWriteAttempt_modbus_of_build_ok (k : ODKey) (v : ℚ)
    (resp : List ℕ) (tid : ℕ) (pdu : List ℕ)
    (hb : build_write_request k v = .ok pdu) :
    sdoWriteAttempt k v resp tid = .error .modbusException := by
  simp [sdoWriteAttempt, hb, parse_response_pyval, PyResponse.pyLen]

/-- Every attempt of src/protocol.py's write yields some error: either the
builder fails, or the parser receives the 2-tuple and fails its length
guard. -/
theorem sdoWriteAttempt_always_error (k : ODKey) (v : ℚ) (resp : List ℕ)
    (tid : ℕ) : ∃ e, sdoWriteAttempt k v resp tid = .error e := by
  rcases hb : build_write_request k v with e | pdu
  · exact ⟨e, by simp [sdoWriteAttempt, hb]⟩
  · exact ⟨.modbusException,
      sdoWriteAttempt_modbus_of_build_ok k v resp tid pdu hb⟩

/-- The src write retry loop can only end in an error: no attempt
succeeds. -/
theorem sdoWriteLoop_never_ok (k : ODKey) (v : ℚ) (env : ℕ → List ℕ × ℕ) :
    ∀ n i u, sdoWriteLoop k v env i n ≠ .ok u := by
  intro n
  induction n with
  | zero => intro i u h; exact absurd h (by simp [sdoWriteLoop])
  | succ p ih =>
    intro i u h
    obtain ⟨e, he⟩ := sdoWriteAttempt_always_error k v (env i).1 (env i).2
    simp only [sdoWriteLoop, he] at h
    split at h
    · split at h
      · exact absurd h (by simp)
      · exact ih (i + 1) u h
    · exact absurd h (by simp)

/-- src/protocol.py's write never returns success, for any key, value and
sequence of transport exchanges. -/
theorem DryveSDO_write_never_ok (k : ODKey) (v : ℚ) (env : ℕ → List ℕ × ℕ)
    (u : Unit) : DryveSDO_write k v env ≠ .ok u := by
  intro h
  simp only [DryveSDO_write] at h
  split at h
  · exact absurd h (by simp)
  · exact sdoWriteLoop_never_ok k v env 3 0 u h

/-- C2 counterexample: given the actual FRAME, the parser accepts the
well-formed matching statusword echo and rejects the same frame with
echoed index 0x6042 as `ModbusException` — the error kind the loops retry;
but the composed `DryveSDO.read` hands the parser the transport's
`(tid, frame)` tuple, so it returns the very same `ModbusException` after
three attempts whether the frame matches or not — it never propagates a
mismatch rejection without another attempt, nor anything that depends on
the mismatch at all. -/
theorem C2_counterexample :
    parse_response
        [0x00, 0x01, 0x00, 0x00, 0x00, 0x0F, 0x01,
         0x2B, 0x0D, 0x00, 0x00, 0x00, 0x60, 0x41, 0x00,
         0x00, 0x00, 0x00, 0x02, 0x21, 0x00] 1
        (some 0x6041) (some 0) (some 2) =
      .ok (1, [0x2B, 0x0D, 0x00, 0x00, 0x00, 0x60, 0x41, 0x00,
               0x00, 0x00, 0x00, 0x02, 0x21, 0x00]) ∧
    parse_response
        [0x00, 0x01, 0x00, 0x00, 0x00, 0x0F, 0x01,
         0x2B, 0x0D, 0x00, 0x00, 0x00, 0x60, 0x42, 0x00,
         0x00, 0x00, 0x00, 0x02, 0x21, 0x00] 1
        (some 0x6041) (some 0) (some 2) = .error .modbusException ∧
    DryveSDO_read .STATUSWORD
        (fun _ => ([0x00, 0x01, 0x00, 0x00, 0x00, 0x0F, 0x01,
                    0x2B, 0x0D, 0x00, 0x00, 0x00, 0x60, 0x42, 0x00,
                    0x00, 0x00, 0x00, 0x02, 0x21, 0x00], 1)) =
      DryveSDO_read .STATUSWORD
        (fun _ => ([0x00, 0x01, 0x00, 0x00, 0x00, 0x0F, 0x01,
                    0x2B, 0x0D, 0x00, 0x00, 0x00, 0x60, 0x41, 0x00,
                    0x00, 0x00, 0x00, 0x02, 0x21, 0x00], 1)) ∧
    DryveSDO_read .STATUSWORD
        (fun _ => ([0x00, 0x01, 0x00, 0x00, 0x00, 0x0F, 0x01,
                    0x2B, 0x0D, 0x00, 0x00, 0x00, 0x60, 0x41, 0x00,
                    0x00, 0x00, 0x00, 0x02, 0x21, 0x00], 1)) =
      .error .modbusException := by
  exact ⟨by with_unfolding_all rfl, by with_unfolding_all rfl,
    by with_unfolding_all rfl, by with_unfolding_all rfl⟩

/-- C2 (amended): packet.py's echo checks reject an index mismatch as
`ModbusException` — the one error kind the SDO loops retry rather than
propagate: with attempts remaining the read loop proceeds to another
attempt, while a non-`ModbusException` error (e.g. a packing error in
write) propagates immediately.  But src/protocol.py's composed read and
write never reach the echo checks: they hand send_request's `(tid, frame)`
tuple to the parser, so every attempt fails the minimum-length guard as
`ModbusException`, and `DryveSDO.read` exhausts its three attempts and
returns `ModbusException` for every key and every exchange sequence — it
can propagate neither a mismatch rejection nor a success. -/
theorem C2_mismatch_rejection_behaviour (k : ODKey) (v : ℚ)
    (env : ℕ → List ℕ × ℕ) (i n : ℕ) :
    (∀ (payload : List ℕ) (ei : ℕ) (es el : Option ℕ),
      ¬payload.length < 10 → ¬payload.length ≤ 11 →
      payload.getD 5 0 * 256 + payload.getD 6 0 ≠ ei →
      parse_echo_checks payload ei es el = .error .modbusException) ∧
    sdoReadAttempt k (env i).1 (env i).2 = .error .modbusException ∧
    sdoReadLoop k env i (n + 1 + 1) = sdoReadLoop k env (i + 1) (n + 1) ∧
    DryveSDO_read k env = .error .modbusException ∧
    (∀ pdu, build_write_request k v = .ok pdu →
      sdoWriteAttempt k v (env i).1 (env i).2 = .error .modbusException) ∧
    (∀ e, sdoWriteAttempt k v (env i).1 (env i).2 = .error e →
      e ≠ .modbusException → sdoWriteLoop k v env i (n + 1) = .error e) := by
  refine ⟨fun payload ei es el h10 h11 hidx => ?_,
    sdoReadAttempt_always_modbus k (env i).1 (env i).2,
    sdoReadLoop_retry k env i n,
    DryveSDO_read_always_modbus k env,
    fun pdu hb =>
      sdoWriteAttempt_modbus_of_build_ok k v (env i).1 (env i).2 pdu hb,
    fun e h hne => ?_⟩
  · simp only [parse_echo_checks]
    rw [if_neg h10, if_neg h11, if_pos hidx]
  · simp [sdoWriteLoop, h, hne]

/-- Witness for C2 (amended): the mismatched statusword echo payload is
rejected by the echo checks; building controlword := 7 succeeds, so that
write attempt fails the tuple length guard; and a packing error
(controlword := 70000 exceeds UINT16) propagates from the write loop
without another attempt. -/
theorem C2_mismatch_rejection_behaviour_witness :
    parse_echo_checks
        [0x2B, 0x0D, 0x00, 0x00, 0x00, 0x60, 0x42, 0x00,
         0x00, 0x00, 0x00, 0x02, 0x21, 0x00] 0x6041 (some 0) (some 2) =
      .error .modbusException ∧
    sdoWriteAttempt .CONTROLWORD 7 [] 1 = .error .modbusException ∧
    sdoWriteLoop .CONTROLWORD 70000 (fun _ => ([], 1)) 0 1 =
      .error .structError := by
  refine ⟨?_, ?_, ?_⟩
  · exact (C2_mismatch_rejection_behaviour .CONTROLWORD 0
      (fun _ => ([], 1)) 0 0).1
      [0x2B, 0x0D, 0x00, 0x00, 0x00, 0x60, 0x42, 0x00,
       0x00, 0x00, 0x00, 0x02, 0x21, 0x00] 0x6041 (some 0) (some 2)
      (by decide) (by decide) (by decide)
  · exact (C2_mismatch_rejection_behaviour .CONTROLWORD 7
      (fun _ => ([], 1)) 0 0).2.2.2.2.1
      [0x2B, 0x0D, 0x01, 0x00, 0x00, 0x60, 0x40, 0x00,
       0x00, 0x00, 0x00, 0x02, 0x07, 0x00] (by with_unfolding_all rfl)
  · exact (C2_mismatch_rejection_behaviour .CONTROLWORD 70000
      (fun _ => ([], 1)) 0 0).2.2.2.2.2 .structError
      (by with_unfolding_all rfl) (by decide)

/-- C10 counterexample: on the well-formed controlword write echo frame
(spec layout, matching transaction id 1), the igusd1 write attempt and the
full igusd1 write succeed, while the src write attempt — which hands the
parser the `(tid, frame)` tuple — fails as `ModbusException` and the full
src write fails after its three attempts: the two drafts do not accept the
same responses. -/
theorem C10_counterexample :
    igusd1WriteAttempt .CONTROLWORD 7
        [0x00, 0x01, 0x00, 0x00, 0x00, 0x10, 0x01,
         0x2B, 0x0D, 0x01, 0x00, 0x00, 0x00, 0x60, 0x40, 0x00,
         0x00, 0x00, 0x00, 0x02, 0x07, 0x00] 1 = .ok () ∧
    sdoWriteAttempt .CONTROLWORD 7
        [0x00, 0x01, 0x00, 0x00, 0x00, 0x10, 0x01,
         0x2B, 0x0D, 0x01, 0x00, 0x00, 0x00, 0x60, 0x40, 0x00,
         0x00, 0x00, 0x00, 0x02, 0x07, 0x00] 1 = .error .modbusException ∧
    Igusd1_write .CONTROLWORD 7
        (fun _ => ([0x00, 0x01, 0x00, 0x00, 0x00, 0x10, 0x01,
                    0x2B, 0x0D, 0x01, 0x00, 0x00, 0x00, 0x60, 0x40, 0x00,
                    0x00, 0x00, 0x00, 0x02, 0x07, 0x00], 1)) = .ok () ∧
    DryveSDO_write .CONTROLWORD 7
        (fun _ => ([0x00, 0x01, 0x00, 0x00, 0x00, 0x10, 0x01,
                    0x2B, 0x0D, 0x01, 0x00, 0x00, 0x00, 0x60, 0x40, 0x00,
                    0x00, 0x00, 0x00, 0x02, 0x07, 0x00], 1)) =
      .error .modbusException := by
  exact ⟨by with_unfolding_all rfl, by with_unfolding_all rfl,
    by with_unfolding_all rfl, by with_unfolding_all rfl⟩

/-- C10 (amended): the two draft writes are not equivalent.  src's write
attempt hands the parser the `(tid, frame)` tuple, so whenever the builder
succeeds the attempt fails the minimum-length guard as `ModbusException`,
whatever the frame — and the full src write never returns success for any
key, value or exchange sequence.  The igusd1 write unpacks the tuple
correctly and, passing no expected length, accepts the well-formed
controlword echo both with the matching echoed length byte 2 and with the
non-matching length byte 3 — the length byte is not checked. -/
theorem C10_write_drafts_not_equivalent (k : ODKey) (v : ℚ)
    (resp : List ℕ) (tid : ℕ) (env : ℕ → List ℕ × ℕ) :
    (∀ pdu, build_write_request k v = .ok pdu →
      sdoWriteAttempt k v resp tid = .error .modbusException) ∧
    DryveSDO_write k v env ≠ .ok () ∧
    igusd1WriteAttempt .CONTROLWORD 7
        [0x00, 0x01, 0x00, 0x00, 0x00, 0x10, 0x01,
         0x2B, 0x0D, 0x01, 0x00, 0x00, 0x00, 0x60, 0x40, 0x00,
         0x00, 0x00, 0x00, 0x02, 0x07, 0x00] 1 = .ok () ∧
    igusd1WriteAttempt .CONTROLWORD 7
        [0x00, 0x01, 0x00, 0x00, 0x00, 0x10, 0x01,
         0x2B, 0x0D, 0x01, 0x00, 0x00, 0x00, 0x60, 0x40, 0x00,
         0x00, 0x00, 0x00, 0x03, 0x07, 0x00] 1 = .ok () :=
  ⟨fun pdu hb => sdoWriteAttempt_modbus_of_build_ok k v resp tid pdu hb,
   DryveSDO_write_never_ok k v env (),
   by with_unfolding_all rfl, by with_unfolding_all rfl⟩

/-- Witness for C10 (amended): at controlword := 7 the builder succeeds,
so the src attempt on the spec-layout echo frame (length byte 3) fails as
`ModbusException` and the full src write cannot succeed, while the igusd1
attempt accepts that same frame. -/
theorem C10_write_drafts_not_equivalent_witness :
    sdoWriteAttempt .CONTROLWORD 7
        [0x00, 0x01, 0x00, 0x00, 0x00, 0x10, 0x01,
         0x2B, 0x0D, 0x01, 0x00, 0x00, 0x00, 0x60, 0x40, 0x00,
         0x00, 0x00, 0x00, 0x03, 0x07, 0x00] 1 = .error .modbusException ∧
    DryveSDO_write .CONTROLWORD 7
        (fun _ => ([0x00, 0x01, 0x00, 0x00, 0x00, 0x10, 0x01,
                    0x2B, 0x0D, 0x01, 0x00, 0x00, 0x00, 0x60, 0x40, 0x00,
                    0x00, 0x00, 0x00, 0x03, 0x07, 0x00], 1)) ≠ .ok () ∧
    igusd1WriteAttempt .CONTROLWORD 7
        [0x00, 0x01, 0x00, 0x00, 0x00, 0x10, 0x01,
         0x2B, 0x0D, 0x01, 0x00, 0x00, 0x00, 0x60, 0x40, 0x00,
         0x00, 0x00, 0x00, 0x03, 0x07, 0x00] 1 = .ok () := by
  refine ⟨?_, ?_, ?_⟩
  · exact (C10_write_drafts_not_equivalent .CONTROLWORD 7
      [0x00, 0x01, 0x00, 0x00, 0x00, 0x10, 0x01,
       0x2B, 0x0D, 0x01, 0x00, 0x00, 0x00, 0x60, 0x40, 0x00,
       0x00, 0x00, 0x00, 0x03, 0x07, 0x00] 1
      (fun _ => ([0x00, 0x01, 0x00, 0x00, 0x00, 0x10, 0x01,
                  0x2B, 0x0D, 0x01, 0x00, 0x00, 0x00, 0x60, 0x40, 0x00,
                  0x00, 0x00, 0x00, 0x03, 0x07, 0x00], 1))).1
      [0x2B, 0x0D, 0x01, 0x00, 0x00, 0x60, 0x40, 0x00,
       0x00, 0x00, 0x00, 0x02, 0x07, 0x00] (by with_unfolding_all rfl)
  · exact (C10_write_drafts_not_equivalent .CONTROLWORD 7
      [0x00, 0x01, 0x00, 0x00, 0x00, 0x10, 0x01,
       0x2B, 0x0D, 0x01, 0x00, 0x00, 0x00, 0x60, 0x40, 0x00,
       0x00, 0x00, 0x00, 0x03, 0x07, 0x00] 1
      (fun _ => ([0x00, 0x01, 0x00, 0x00, 0x00, 0x10, 0x01,
                  0x2B, 0x0D, 0x01, 0x00, 0x00, 0x00, 0x60, 0x40, 0x00,
                  0x00, 0x00, 0x00, 0x03, 0x07, 0x00], 1))).2.1
  · exact (C10_write_drafts_not_equivalent .CONTROLWORD 7
      [0x00, 0x01, 0x00, 0x00, 0x00, 0x10, 0x01,
       0x2B, 0x0D, 0x01, 0x00, 0x00, 0x00, 0x60, 0x40, 0x00,
       0x00, 0x00, 0x00, 0x03, 0x07, 0x00] 1
      (fun _ => ([0x00, 0x01, 0x00, 0x00, 0x00, 0x10, 0x01,
                  0x2B, 0x0D, 0x01, 0x00, 0x00, 0x00, 0x60, 0x40, 0x00,
                  0x00, 0x00, 0x00, 0x03, 0x07, 0x00], 1))).2.2.2

/-- C8: for every statusword value, `parse_drive_state` returns exactly the
result of evaluating the spec's mask/value table in order with first match
winning and `NOT_READY_TO_SWITCH_ON` as fallback. -/
theorem C8_parse_drive_state_matches_table (sw : ℕ) :
    parse_drive_state sw = decodeByTable statuswordDecodeRows sw := rfl

/-- C4 counterexample: for target `FAULT`, statusword 0x0008 decodes to the
target on the very first poll, yet `wait_for_state` raises `FaultState`
instead of returning successfully, because the Fault-bit check runs before
the target comparison. -/
theorem C4_counterexample :
    parse_drive_state 0x0008 = .FAULT ∧
    wait_for_state .FAULT [0x0008] ≠ .ok ∧
    wait_for_state .FAULT [0x0008] = .faultState := by decide

/-- C4 (amended): per poll the Fault bit is checked first — `wait_for_state`
raises `FaultState` on the first polled statusword with the Fault bit set;
it returns successfully on the first poll whose statusword has the Fault
bit clear and decodes to the target; otherwise it consumes the poll; and it
raises `OperationTimeout` once the deadline elapses (no polls left). -/
theorem C4_wait_for_state_behaviour (target : DriveState) (sw : ℕ)
    (rest : List ℕ) :
    (wait_for_state target [] = .opTimeout) ∧
    (Statusword_fault sw = true →
      wait_for_state target (sw :: rest) = .faultState) ∧
    (Statusword_fault sw = false → parse_drive_state sw = target →
      wait_for_state target (sw :: rest) = .ok) ∧
    (Statusword_fault sw = false → parse_drive_state sw ≠ target →
      wait_for_state target (sw :: rest) = wait_for_state target rest) := by
  refine ⟨rfl, fun hf => ?_, fun hf ht => ?_, fun hf ht => ?_⟩
  · simp [wait_for_state, hf]
  · simp [wait_for_state, hf, ht]
  · simp [wait_for_state, hf, ht]

/-- Witness for C4 (amended): statusword 0x0008 raises `FaultState` at
once; statusword 0x0023 returns for target `SWITCHED_ON`; statusword
0x0021 is consumed when waiting for `SWITCHED_ON`. -/
theorem C4_wait_for_state_behaviour_witness :
    (wait_for_state .SWITCHED_ON [0x0008, 0x0023] = .faultState) ∧
    (wait_for_state .SWITCHED_ON [0x0023] = .ok) ∧
    (wait_for_state .SWITCHED_ON [0x0021] =
      wait_for_state .SWITCHED_ON ([] : List ℕ)) :=
  ⟨(C4_wait_for_state_behaviour .SWITCHED_ON 0x0008 [0x0023]).2.1 (by decide),
   (C4_wait_for_state_behaviour .SWITCHED_ON 0x0023 []).2.2.1 (by decide)
     (by decide),
   (C4_wait_for_state_behaviour .SWITCHED_ON 0x0021 []).2.2.2 (by decide)
     (by decide)⟩

/-- C5 counterexample: with the Fault bit clear (statusword 0x0040),
`fault_reset` is not a no-op beyond reading the Statusword — before the
fault check it performs two object-dictionary writes (mode_of_operation 6
then 1). -/
theorem C5_counterexample :
    Statusword_fault 0x0040 = false ∧
    fault_reset 0x0040 =
      [.writeOp .MODE_OF_OPERATION 6, .writeOp .MODE_OF_OPERATION 1,
       .readOp .STATUSWORD] ∧
    (fault_reset 0x0040).countP
        (fun op => match op with
          | SdoOp.writeOp _ _ => true
          | _ => false) = 2 := by decide

/-- C5 (amended): `fault_reset` always writes mode_of_operation = 6 and
then = 1 before reading the Statusword; when the Fault bit is not set it
then returns — issuing no controlword write and no wait — so those two mode
writes are the only writes it performs. -/
theorem C5_fault_reset_no_fault_trace (sw : ℕ)
    (h : Statusword_fault sw = false) :
    fault_reset sw =
      [.writeOp .MODE_OF_OPERATION 6, .writeOp .MODE_OF_OPERATION 1,
       .readOp .STATUSWORD] ∧
    (∀ v : ℤ, SdoOp.writeOp .CONTROLWORD v ∉ fault_reset sw) ∧
    (∀ t : DriveState, SdoOp.waitFor t ∉ fault_reset sw) := by
  have htr : fault_reset sw =
      [.writeOp .MODE_OF_OPERATION 6, .writeOp .MODE_OF_OPERATION 1,
       .readOp .STATUSWORD] := by
    simp [fault_reset, h]
  refine ⟨htr, fun v => ?_, fun t => ?_⟩
  · rw [htr]
    simp
  · rw [htr]
    simp

/-- Witness for C5 (amended), at statusword 0x0040 (`SWITCH_ON_DISABLED`,
Fault bit clear). -/
theorem C5_fault_reset_no_fault_trace_witness :
    fault_reset 0x0040 =
      [.writeOp .MODE_OF_OPERATION 6, .writeOp .MODE_OF_OPERATION 1,
       .readOp .STATUSWORD] ∧
    (∀ v : ℤ, SdoOp.writeOp .CONTROLWORD v ∉ fault_reset 0x0040) ∧
    (∀ t : DriveState, SdoOp.waitFor t ∉ fault_reset 0x0040) :=
  C5_fault_reset_no_fault_trace 0x0040 (by decide)

/-- C3 counterexample: two successive successful `send_request` calls on
one transport.  The first call (on a fresh connection) returns id 1.  The
second call's first attempt fails on the wire, so the loop reconnects —
`connect()` resets the counter to 0 — and the retried exchange succeeds
with id 1 again instead of id 2: the sequence is not preserved across the
reconnect. -/
theorem C3_counterexample :
    send_request ⟨true, 0, true⟩ (fun _ => (true, true)) =
      (⟨true, 1, true⟩, some 1) ∧
    send_request ⟨true, 1, true⟩
        (fun i => if i = 0 then (true, false) else (true, true)) =
      (⟨true, 1, false⟩, some 1) ∧
    (1 : ℕ) ≠ (1 + 1) % 65536 := by decide

theorem send_request_first_attempt_ok (s : TransportState)
    (env : ℕ → Bool × Bool) (ho : s.sockOpen = true)
    (he : (env 0).2 = true) :
    send_request s env =
      ({ s with transactionId := (s.transactionId + 1) % 65536 },
       some ((s.transactionId + 1) % 65536)) := by
  simp only [send_request, sendRequestGo, sendAttempt, ho, he,
    nextTransactionId]
  simp [ho]

/-- C3 (amended): transaction ids are strictly sequential modulo 65536
across `send_request` calls whose first attempt succeeds on an already-open
connection — each such call returns `(previous id + 1) % 65536` — but
`connect()` resets the counter to 0, so the sequence restarts (at 1) after
any reconnect instead of being preserved. -/
theorem C3_sequential_without_reconnect (s : TransportState)
    (env : ℕ → Bool × Bool) (ho : s.sockOpen = true)
    (he : (env 0).2 = true) :
    send_request s env =
      ({ s with transactionId := (s.transactionId + 1) % 65536 },
       some ((s.transactionId + 1) % 65536)) ∧
    (connectOk s).transactionId = 0 :=
  ⟨send_request_first_attempt_ok s env ho he, rfl⟩

/-- Witness for C3 (amended) at counter value 5 on an open connection. -/
theorem C3_sequential_without_reconnect_witness :
    send_request ⟨true, 5, true⟩ (fun _ => (true, true)) =
      ({ TransportState.mk true 5 true with transactionId := (5 + 1) % 65536 },
       some ((5 + 1) % 65536)) ∧
    (connectOk ⟨true, 5, true⟩).transactionId = 0 :=
  C3_sequential_without_reconnect ⟨true, 5, true⟩ (fun _ => (true, true))
    rfl rfl

theorem sendAttempt_hb_false (s : TransportState) (e : Bool × Bool)
    (h : s.hbAlive = false) : (sendAttempt s e).1.hbAlive = false := by
  unfold sendAttempt
  split
  · rfl
  · dsimp only [nextTransactionId]
    split
    · by_cases hso : s.sockOpen = true <;> simp [hso, connectOk, tclose,
        stop_heartbeat, h]
    · rfl

theorem sendRequestGo_hb_false (env : ℕ → Bool × Bool) (i n : ℕ)
    (s : TransportState) (h : s.hbAlive = false) :
    ((sendRequestGo env i n s).1).hbAlive = false := by
  induction n generalizing i s with
  | zero => exact h
  | succ n ih =>
    unfold sendRequestGo
    rcases ha : sendAttempt s (env i) with ⟨s1, t⟩
    have h1 : s1.hbAlive = false := by
      have := sendAttempt_hb_false s (env i) h
      rw [ha] at this
      exact this
    cases t with
    | some t => exact h1
    | none => exact ih (i + 1) s1 h1

/-- C6 counterexample: one `send_request` call whose first attempt fails on
the wire and whose retry succeeds.  The call as a whole SUCCEEDS (returns a
transaction id), yet the transient failure ran `close()`, which calls
`stop_heartbeat()` — so a failed exchange does stop the heartbeat loop even
though `stop_heartbeat` was never called explicitly and the transport was
not torn down by its user. -/
theorem C6_counterexample :
    (send_request ⟨true, 0, true⟩
        (fun i => if i = 0 then (true, false) else (true, true))).2 =
      some 1 ∧
    (send_request ⟨true, 0, true⟩
        (fun i => if i = 0 then (true, false) else (true, true))).1.hbAlive =
      false ∧
    heartbeatLoop (fun _ _ => (true, true)) 5
        (send_request ⟨true, 0, true⟩
          (fun i => if i = 0 then (true, false) else (true, true))).1 =
      (send_request ⟨true, 0, true⟩
        (fun i => if i = 0 then (true, false) else (true, true))).1 := by
  decide

/-- C6 (amended): the heartbeat loop body itself never ends the loop — with
the stop flag clear and every exchange succeeding on its first attempt the
loop stays alive for any number of iterations, and once the stop flag is
set the loop exits immediately — but the stop flag is set not only by an
explicit `stop_heartbeat()`/`close()` teardown: any transport failure
inside `send_request` (from any caller) runs `close()`, which stops the
heartbeat, and no later attempt revives it. -/
theorem C6_heartbeat_stops_only_via_close (s : TransportState)
    (envs : ℕ → ℕ → Bool × Bool) (n : ℕ) (e : ℕ → Bool × Bool) :
    (s.hbAlive = false → heartbeatLoop envs n s = s) ∧
    ((∀ k, (envs k 0).2 = true) → s.hbAlive = true → s.sockOpen = true →
      (heartbeatLoop envs n s).hbAlive = true) ∧
    ((e 0).2 = false → s.sockOpen = true →
      (send_request s e).1.hbAlive = false) := by
  refine ⟨fun h => ?_, fun hall hhb hso => ?_, fun he hso => ?_⟩
  · cases n with
    | zero => rfl
    | succ n => simp [heartbeatLoop, h]
  · induction n generalizing s with
    | zero => exact hhb
    | succ n ih =>
      have hstep : send_request s (envs n) =
          ({ s with transactionId := (s.transactionId + 1) % 65536 },
           some ((s.transactionId + 1) % 65536)) :=
        send_request_first_attempt_ok s (envs n) hso (hall n)
      simp only [heartbeatLoop, hhb, if_true, hstep]
      refine ih _ ?_ ?_ <;> simp [hso]
  · have hfail : (sendAttempt s (e 0)).1.hbAlive = false := by
      unfold sendAttempt
      rw [if_neg (by simp [hso])]
      dsimp only [nextTransactionId]
      rw [if_neg (by simp [he])]
      simp [tclose, stop_heartbeat]
    unfold send_request sendRequestGo
    rcases ha : sendAttempt s (e 0) with ⟨s1, t⟩
    have h1 : s1.hbAlive = false := by
      rw [ha] at hfail
      exact hfail
    cases t with
    | some t => exact h1
    | none => exact sendRequestGo_hb_false e 1 2 s1 h1

/-- Witness for C6 (amended): a stopped heartbeat stays stopped; with
first-attempt successes the loop survives three iterations; a failing first
attempt kills the heartbeat. -/
theorem C6_heartbeat_stops_only_via_close_witness :
    (heartbeatLoop (fun _ _ => (true, true)) 3 ⟨true, 0, false⟩ =
      ⟨true, 0, false⟩) ∧
    ((heartbeatLoop (fun _ _ => (true, true)) 3 ⟨true, 0, true⟩).hbAlive =
      true) ∧
    ((send_request ⟨true, 0, true⟩ (fun _ => (true, false))).1.hbAlive =
      false) :=
  ⟨(C6_heartbeat_stops_only_via_close ⟨true, 0, false⟩ (fun _ _ => (true, true))
      3 (fun _ => (true, false))).1 rfl,
   (C6_heartbeat_stops_only_via_close ⟨true, 0, true⟩ (fun _ _ => (true, true))
      3 (fun _ => (true, false))).2.1 (fun _ => rfl) rfl rfl,
   (C6_heartbeat_stops_only_via_close ⟨true, 0, true⟩ (fun _ _ => (true, true))
      3 (fun _ => (true, false))).2.2 rfl rfl⟩

end IgusD1
